import Mathlib

/-!
Verification development for the auto-commit core of the Git-Manager
repository (src/git_manager.py).  The Python functions `load_config`,
`save_config`, `decrypt_data`, `edit_config`, `menu` and
`auto_commit_process` are shallowly embedded below; subprocess calls to
the external git tool are modelled by an oracle (`GitEnv`) giving each
call site its observed output or exit status, and the loop records the
sequence of invocations it performs (`Cmd` traces).
-/

/-- Python substring prefix test on character lists (`pat` starts `text`). -/
def charsStartWith : List Char → List Char → Bool
  | [], _ => true
  | _ :: _, [] => false
  | p :: ps, t :: ts => p == t && charsStartWith ps ts

/-- Python substring containment test on character lists. -/
def charsContain (pat : List Char) : List Char → Bool
  | [] => pat.isEmpty
  | t :: ts => charsStartWith pat (t :: ts) || charsContain pat ts

/-- The Python expression `pat in s` for strings (substring containment),
as used in the `user.name` / `user.email` checks of `auto_commit_process`. -/
def pyIn (pat s : String) : Bool := charsContain pat.data s.data

/-- Truthiness of `stdout.strip()` in Python: true iff the string holds a
character that is not whitespace. -/
def pyTruthy (s : String) : Bool := !(s.data.all Char.isWhitespace)

/-- The value of `tracked_files` in the configuration dictionary: the
source stores either the string `"all"` or a list of path strings
(`track_files`, lines 93-235 of src/git_manager.py). -/
inductive TrackedFiles where
  | all
  | files (fs : List String)
deriving DecidableEq

/-- The configuration dictionary persisted by src/git_manager.py.  Each
field is optional because the underlying Python `dict` may lack the key
(`load_config` backfills only some of them).  `none` means the key is
absent. -/
structure ConfigDict where
  repoUrl : Option String
  trackedFiles : Option TrackedFiles
  autoCommit : Option Bool
  daemonMode : Option Bool
  commitInterval : Option Int
  githubToken : Option String
deriving DecidableEq

/-- The default dictionary literal of `load_config` (lines 52 and 65):
`{"repo_url": "", "tracked_files": [], "auto_commit": False,
"daemon_mode": False}`.  Note it has no `commit_interval` key. -/
def defaultConfig : ConfigDict :=
  { repoUrl := some ""
    trackedFiles := some (TrackedFiles.files [])
    autoCommit := some false
    daemonMode := some false
    commitInterval := none
    githubToken := none }

/-- Content of the persisted CONFIG_FILE, as seen by `decrypt_data`:
either a valid Fernet token whose decrypted payload is the JSON document
of a configuration dictionary, a valid token whose payload fails
`json.loads`, or bytes that are not a valid token for the current key
(corrupted file, or the key file was regenerated). -/
inductive StoredBlob where
  | token (d : ConfigDict)
  | tokenBadJson
  | notAToken
deriving DecidableEq

/-- Python exceptions relevant to `load_config`.  `invalidToken` is
`cryptography.fernet.InvalidToken`, which subclasses `Exception`
directly; `jsonDecodeError` is `json.JSONDecodeError`, a subclass of
`ValueError`. -/
inductive PyErr where
  | invalidToken
  | jsonDecodeError
deriving DecidableEq

/-- `decrypt_data` (lines 43-47): `json.loads(cipher.decrypt(...))`.
Decryption failure raises `InvalidToken`; a payload that is not valid
JSON raises `json.JSONDecodeError`. -/
def decrypt_data : StoredBlob → Except PyErr ConfigDict
  | StoredBlob.token d => Except.ok d
  | StoredBlob.tokenBadJson => Except.error PyErr.jsonDecodeError
  | StoredBlob.notAToken => Except.error PyErr.invalidToken

/-- Whether the clause `except (json.JSONDecodeError, ValueError)` of
`load_config` (line 63) catches the exception.  `InvalidToken` is not a
`ValueError`, so it is not caught. -/
def caughtByLoadExcept : PyErr → Bool
  | PyErr.jsonDecodeError => true
  | PyErr.invalidToken => false

/-- The key backfill of `load_config` (lines 58-61): if `daemon_mode` is
missing it is set to `False`; if `tracked_files` is missing it is set to
`[]`.  No other key is backfilled. -/
def backfill (c : ConfigDict) : ConfigDict :=
  { c with
    daemonMode := some (c.daemonMode.getD false)
    trackedFiles := some (c.trackedFiles.getD (TrackedFiles.files [])) }

/-- `load_config` (lines 49-65): missing file gives the default
dictionary; otherwise the file is decrypted and backfilled, and only
`json.JSONDecodeError` / `ValueError` are caught and turned into the
default.  An uncaught exception propagates (`Except.error`). -/
def load_config : Option StoredBlob → Except PyErr ConfigDict
  | none => Except.ok defaultConfig
  | some blob =>
    match decrypt_data blob with
    | Except.ok cfg => Except.ok (backfill cfg)
    | Except.error e =>
      if caughtByLoadExcept e then Except.ok defaultConfig else Except.error e

/-- Whether `load_config` raises for this file content. -/
def loadFails (b : Option StoredBlob) : Bool :=
  match load_config b with
  | Except.error _ => true
  | Except.ok _ => false

/-- Result of `save_config` (lines 67-73): the encrypted content written
to CONFIG_FILE, together with the truthiness of the value the function
returns.  The Python function has no `return` statement, so it returns
`None`, which is falsy in every `if save_config(config):` test of its
callers. -/
structure SaveResult where
  written : StoredBlob
  retTruthy : Bool
deriving DecidableEq

/-- `save_config` (lines 67-73): encrypts the dictionary and writes it,
returning `None`. -/
def save_config (c : ConfigDict) : SaveResult :=
  { written := StoredBlob.token c, retTruthy := false }

/-- A fully populated configuration dictionary: every schema key is
present, so the backfill of `load_config` is a no-op. -/
def fullConfig (c : ConfigDict) : Prop :=
  c.repoUrl.isSome = true ∧ c.trackedFiles.isSome = true ∧
  c.autoCommit.isSome = true ∧ c.daemonMode.isSome = true ∧
  c.commitInterval.isSome = true ∧ c.githubToken.isSome = true

/-- The git subprocess invocations made by `auto_commit_process`
(lines 507-628).  `fetch`, `merge` and `forcePush` are commands the
source never issues in this function; they are included so that their
absence from execution traces can be stated. -/
inductive Cmd where
  | configList
  | statusPorcelain
  | statusFile (f : String)
  | addAll
  | addFile (f : String)
  | commit
  | push
  | fetch
  | merge
  | forcePush
deriving DecidableEq

/-- The `timeout` argument passed to `subprocess.run` at each call site
of `auto_commit_process`: no call passes one, so every invocation is
unbounded. -/
def subprocessTimeout : Cmd → Option Nat
  | Cmd.configList => none
  | Cmd.statusPorcelain => none
  | Cmd.statusFile _ => none
  | Cmd.addAll => none
  | Cmd.addFile _ => none
  | Cmd.commit => none
  | Cmd.push => none
  | Cmd.fetch => none
  | Cmd.merge => none
  | Cmd.forcePush => none

/-- Oracle for the outcome of each subprocess call of one scheduler
cycle.  Output-producing calls yield their stdout; `check=True` calls
yield success or `CalledProcessError`.  The two `git status --porcelain`
call sites (change detection, line 539, and the post-staging re-check,
line 583) run at different times so they get separate fields. -/
structure GitEnv where
  configListOut : String
  statusDetectOut : String
  statusFileOut : String → String
  statusStagedOut : String
  fileExists : String → Bool
  addAllOk : Bool
  addFileOk : String → Bool
  commitOk : Bool
  pushOk : Bool

/-- Count of a command in a trace. -/
def countCmd (c : Cmd) : List Cmd → Nat
  | [] => 0
  | d :: t => (if d = c then 1 else 0) + countCmd c t

/-- Change detection over an explicit tracked list (lines 548-560):
per existing path, run `git status --porcelain <file>`; stop at the
first path with output.  Missing paths are skipped without invoking the
tool.  Returns the flag and the commands invoked. -/
def detectFiles (env : GitEnv) : List String → Bool × List Cmd
  | [] => (false, [])
  | f :: rest =>
    if env.fileExists f = false then detectFiles env rest
    else if pyTruthy (env.statusFileOut f) then (true, [Cmd.statusFile f])
    else
      let r := detectFiles env rest
      (r.fst, Cmd.statusFile f :: r.snd)

/-- Change detection (lines 536-560): for `"all"`, one
`git status --porcelain` call; otherwise the per-file loop. -/
def detectChanges (env : GitEnv) : TrackedFiles → Bool × List Cmd
  | TrackedFiles.all => (pyTruthy env.statusDetectOut, [Cmd.statusPorcelain])
  | TrackedFiles.files fs => detectFiles env fs

/-- Staging loop for an explicit list (lines 572-580): `git add <file>`
for each existing path with `check=True`; the first failure raises and
aborts the rest.  Returns success flag and the add commands issued. -/
def stageEach (env : GitEnv) : List String → Bool × List Cmd
  | [] => (true, [])
  | f :: rest =>
    if env.fileExists f = false then stageEach env rest
    else if env.addFileOk f = false then (false, [Cmd.addFile f])
    else
      let r := stageEach env rest
      (r.fst, Cmd.addFile f :: r.snd)

/-- Outcome of one entry into the inner try of `auto_commit_process`
(lines 562-608): committed and pushed, staged status empty (no commit),
or a `CalledProcessError`. -/
inductive SyncResult where
  | ok
  | noStaged
  | err
deriving DecidableEq

/-- The part of the inner try after staging (lines 582-604): re-check
`git status --porcelain`; if its stripped output is truthy, commit and
push, each of which may raise. -/
def afterStage (env : GitEnv) (pre : List Cmd) : SyncResult × List Cmd :=
  let t := pre ++ [Cmd.statusPorcelain]
  if pyTruthy env.statusStagedOut then
    if env.commitOk then
      if env.pushOk then (SyncResult.ok, t ++ [Cmd.commit, Cmd.push])
      else (SyncResult.err, t ++ [Cmd.commit, Cmd.push])
    else (SyncResult.err, t ++ [Cmd.commit])
  else (SyncResult.noStaged, t)

/-- The full inner try (lines 562-604): stage (`git add .` for `"all"`,
the per-file loop otherwise), then re-check and commit/push.  There is
no fetch, merge or push retry anywhere in it. -/
def syncAttempt (env : GitEnv) : TrackedFiles → SyncResult × List Cmd
  | TrackedFiles.all =>
    if env.addAllOk then afterStage env [Cmd.addAll]
    else (SyncResult.err, [Cmd.addAll])
  | TrackedFiles.files fs =>
    let st := stageEach env fs
    if st.fst then afterStage env st.snd else (SyncResult.err, st.snd)

/-- How one iteration of the `while True` loop ends: the three `return`
statements of the loop body, or falling through to `time.sleep(n)`. -/
inductive CycleExit where
  | stoppedDisabled
  | stoppedGitUser
  | stoppedThreshold
  | next (sleepSeconds : Nat)
deriving DecidableEq

/-- Observable outcome of one loop iteration: how it ended, the error
count afterwards, whether the inner try (a sync attempt) was entered,
and the subprocess invocations made. -/
structure CycleOut where
  exit : CycleExit
  errCount : Nat
  syncAttempted : Bool
  trace : List Cmd
deriving DecidableEq

/-- `config.get("auto_commit") or config.get("daemon_mode")` (line 516):
a missing key gives `None`, which is falsy. -/
def flagsOn (c : ConfigDict) : Bool :=
  c.autoCommit.getD false || c.daemonMode.getD false

/-- One iteration of the loop body of `auto_commit_process` after a
successful `load_config` (lines 516-619): disabled-flags return, the
`git config --list` user check (lines 523-534), change detection, the
inner try with its error counting (lines 610-616), and the constant
`time.sleep(30)` (line 619). -/
def autoCommitCycle (env : GitEnv) (cfg : ConfigDict) (ec : Nat) : CycleOut :=
  if flagsOn cfg = false then
    { exit := CycleExit.stoppedDisabled, errCount := ec
      syncAttempted := false, trace := [] }
  else if (pyIn "user.name" env.configListOut &&
      pyIn "user.email" env.configListOut) = false then
    { exit := CycleExit.stoppedGitUser, errCount := ec
      syncAttempted := false, trace := [Cmd.configList] }
  else
    let tf := cfg.trackedFiles.getD (TrackedFiles.files [])
    let det := detectChanges env tf
    if det.fst then
      let syn := syncAttempt env tf
      let trace := Cmd.configList :: (det.snd ++ syn.snd)
      match syn.fst with
      | SyncResult.ok =>
        { exit := CycleExit.next 30, errCount := 0
          syncAttempted := true, trace := trace }
      | SyncResult.noStaged =>
        { exit := CycleExit.next 30, errCount := ec
          syncAttempted := true, trace := trace }
      | SyncResult.err =>
        if 3 ≤ ec + 1 then
          { exit := CycleExit.stoppedThreshold, errCount := ec + 1
            syncAttempted := true, trace := trace }
        else
          { exit := CycleExit.next 30, errCount := ec + 1
            syncAttempted := true, trace := trace }
    else
      { exit := CycleExit.next 30, errCount := ec
        syncAttempted := false, trace := Cmd.configList :: det.snd }

/-- One iteration including `config = load_config()` (line 515) under
the outer try: if `load_config` raises, the outer except (lines 621-628)
increments the error count, stops at the threshold, and otherwise sleeps
60 seconds. -/
def cycleStep (env : GitEnv) (blob : Option StoredBlob) (ec : Nat) : CycleOut :=
  match load_config blob with
  | Except.error _ =>
    if 3 ≤ ec + 1 then
      { exit := CycleExit.stoppedThreshold, errCount := ec + 1
        syncAttempted := false, trace := [] }
    else
      { exit := CycleExit.next 60, errCount := ec + 1
        syncAttempted := false, trace := [] }
  | Except.ok cfg => autoCommitCycle env cfg ec

/-- Why the loop returned. -/
inductive StopReason where
  | disabled
  | gitUserMissing
  | errorThreshold
deriving DecidableEq

/-- Aggregate observation of a bounded run of the `while True` loop:
whether and why it returned, how many iterations ran, how many sync
attempts were made, and the final error count.  `stopped = none` means
the fuel ran out with the loop still going. -/
structure LoopResult where
  stopped : Option StopReason
  cyclesRun : Nat
  syncAttempts : Nat
  finalErr : Nat
deriving DecidableEq

/-- Fuel-bounded run of the `while True` loop of `auto_commit_process`.
`envs i` / `blobs i` are the subprocess outcomes and the CONFIG_FILE
content observed by iteration `i`; the configuration is reloaded every
iteration, exactly as in the source. -/
def runLoop (envs : Nat → GitEnv) (blobs : Nat → Option StoredBlob) :
    Nat → Nat → Nat → Nat → LoopResult
  | 0, i, ec, sa => { stopped := none, cyclesRun := i, syncAttempts := sa, finalErr := ec }
  | fuel + 1, i, ec, sa =>
    let out := cycleStep (envs i) (blobs i) ec
    let sa2 := sa + (if out.syncAttempted then 1 else 0)
    match out.exit with
    | CycleExit.stoppedDisabled =>
      { stopped := some StopReason.disabled, cyclesRun := i + 1
        syncAttempts := sa2, finalErr := out.errCount }
    | CycleExit.stoppedGitUser =>
      { stopped := some StopReason.gitUserMissing, cyclesRun := i + 1
        syncAttempts := sa2, finalErr := out.errCount }
    | CycleExit.stoppedThreshold =>
      { stopped := some StopReason.errorThreshold, cyclesRun := i + 1
        syncAttempts := sa2, finalErr := out.errCount }
    | CycleExit.next _ => runLoop envs blobs fuel (i + 1) out.errCount sa2

/-- The startup condition of `menu` (lines 862-867): a scheduler thread
is spawned iff `config.get("auto_commit") or config.get("daemon_mode")`
is truthy in the loaded configuration. -/
def menu_starts_scheduler (cfg : ConfigDict) : Bool := flagsOn cfg

/-- Observable outcome of one `edit_config` action: what was written to
CONFIG_FILE (if a save ran), the in-memory dictionary afterwards, and
whether a scheduler thread was spawned. -/
structure EditOutcome where
  written : Option StoredBlob
  finalMem : ConfigDict
  spawned : Bool
deriving DecidableEq

/-- `edit_config` choice "1" (lines 247-280): toggle `auto_commit`.
When enabling, `commit_interval` is set from the prompt, the dictionary
is saved, and the thread spawn (lines 263-266) runs only under
`if save_config(config):`; since `save_config` returns `None`, the else
branch runs instead, reverting the in-memory flag (the file keeps the
enabled value).  When disabling, the same falsy test reverts the
in-memory flag after the save.  The key is read with `config["auto_commit"]`,
modelled here for a dictionary in which the key is present. -/
def edit_toggle_auto_commit (cfg : ConfigDict) (interval : Int) : EditOutcome :=
  let newVal := !(cfg.autoCommit.getD false)
  if newVal then
    let cfg1 := { cfg with autoCommit := some true, commitInterval := some interval }
    let sr := save_config cfg1
    if sr.retTruthy then
      { written := some sr.written, finalMem := cfg1, spawned := true }
    else
      { written := some sr.written
        finalMem := { cfg1 with autoCommit := some false }, spawned := false }
  else
    let cfg1 := { cfg with autoCommit := some false }
    let sr := save_config cfg1
    if sr.retTruthy then
      { written := some sr.written, finalMem := cfg1, spawned := false }
    else
      { written := some sr.written
        finalMem := { cfg1 with autoCommit := some true }, spawned := false }

/-- `edit_config` choice "2" (lines 282-297): toggle `daemon_mode` and
save.  Neither branch spawns a thread; with the falsy `save_config`
return the in-memory value is also reverted. -/
def edit_toggle_daemon (cfg : ConfigDict) : EditOutcome :=
  let old := cfg.daemonMode.getD false
  let cfg1 := { cfg with daemonMode := some (!old) }
  let sr := save_config cfg1
  if sr.retTruthy then
    { written := some sr.written, finalMem := cfg1, spawned := false }
  else
    { written := some sr.written
      finalMem := { cfg1 with daemonMode := some old }, spawned := false }

/-- Concrete dictionary: auto-commit enabled, tracking all files,
interval 30 minutes. -/
def dEnabledAll : ConfigDict :=
  { repoUrl := some ""
    trackedFiles := some TrackedFiles.all
    autoCommit := some true
    daemonMode := some false
    commitInterval := some 30
    githubToken := none }

/-- CONFIG_FILE holding `dEnabledAll`. -/
def blobEnabledAll : Option StoredBlob := some (StoredBlob.token dEnabledAll)

/-- Concrete oracle: git user configured, changes present, every
subprocess call succeeds. -/
def envSucc : GitEnv :=
  { configListOut := "user.name=u user.email=e"
    statusDetectOut := "M a.txt"
    statusFileOut := fun _ => ""
    statusStagedOut := "M a.txt"
    fileExists := fun _ => true
    addAllOk := true
    addFileOk := fun _ => true
    commitOk := true
    pushOk := true }

/-- Concrete oracle: like `envSucc` but `git commit` raises each time. -/
def envCommitFail : GitEnv := { envSucc with commitOk := false }

/-- Concrete oracle: like `envSucc` but the push is rejected. -/
def envPushFail : GitEnv := { envSucc with pushOk := false }

/-- Concrete oracle: git configuration lacking a `user.name` entry. -/
def envMissingUser : GitEnv := { envSucc with configListOut := "user.email=e" }

/-- Concrete dictionary stored without an `auto_commit` key (for example
written by an older or newer schema). -/
def dNoAutoCommit : ConfigDict :=
  { repoUrl := some ""
    trackedFiles := some (TrackedFiles.files [])
    autoCommit := none
    daemonMode := some false
    commitInterval := none
    githubToken := none }

/-- Concrete fully populated dictionary. -/
def dFull : ConfigDict :=
  { repoUrl := some "https://example.invalid/r.git"
    trackedFiles := some (TrackedFiles.files ["a.txt"])
    autoCommit := some true
    daemonMode := some false
    commitInterval := some 30
    githubToken := some "tok" }

/-- Hypotheses of the threshold claim, per cycle: the stored
configuration decodes with auto-commit on and `"all"` tracking, the git
user is configured, change detection fires, staging and the staged
re-check go through, and the commit or the push raises
`CalledProcessError`. -/
def alwaysFailingSync (env : GitEnv) (blob : Option StoredBlob) : Prop :=
  (∃ d : ConfigDict, blob = some (StoredBlob.token d) ∧
    d.autoCommit = some true ∧ d.trackedFiles = some TrackedFiles.all) ∧
  pyIn "user.name" env.configListOut = true ∧
  pyIn "user.email" env.configListOut = true ∧
  pyTruthy env.statusDetectOut = true ∧
  env.addAllOk = true ∧
  pyTruthy env.statusStagedOut = true ∧
  (env.commitOk = false ∨ env.pushOk = false)

theorem cycleStep_ok {blob : Option StoredBlob} {cfg : ConfigDict}
    (h : load_config blob = Except.ok cfg) (env : GitEnv) (ec : Nat) :
    cycleStep env blob ec = autoCommitCycle env cfg ec := by
  unfold cycleStep
  rw [h]

/-- Claim C3: `load_config` is claimed to return the default
configuration on a missing file, a JSON decode error, or a decrypt
error, never raising.  The first two hold, but a decrypt failure raises
`InvalidToken`, which the except clause does not catch, so the exception
propagates to the caller. -/
theorem load_decrypt_error_propagates :
    load_config (some StoredBlob.notAToken) = Except.error PyErr.invalidToken ∧
    load_config none = Except.ok defaultConfig ∧
    load_config (some StoredBlob.tokenBadJson) = Except.ok defaultConfig :=
  ⟨rfl, rfl, rfl⟩

/-- Claim C4: saving a valid, fully populated configuration and loading
it back yields the same configuration in every field (the backfill is a
no-op). -/
theorem config_roundtrip (c : ConfigDict) (h : fullConfig c) :
    load_config (some (save_config c).written) = Except.ok c := by
  obtain ⟨ru, tf, ac, dm, ci, gt⟩ := c
  obtain ⟨h1, h2, h3, h4, h5, h6⟩ := h
  simp only at h2 h4
  cases tf with
  | none => simp at h2
  | some t =>
    cases dm with
    | none => simp at h4
    | some d => rfl

theorem config_roundtrip_witness :
    load_config (some (save_config dFull).written) = Except.ok dFull :=
  config_roundtrip dFull ⟨rfl, rfl, rfl, rfl, rfl, rfl⟩

/-- Counterexample to claim C8: a stored dictionary missing the
`auto_commit` key is returned by `load_config` still missing it — only
`daemon_mode` and `tracked_files` are backfilled. -/
theorem load_missing_key_not_backfilled_cex :
    load_config (some (StoredBlob.token dNoAutoCommit)) = Except.ok dNoAutoCommit ∧
    dNoAutoCommit.autoCommit = none :=
  ⟨rfl, rfl⟩

/-- Claim C8 (amended): on load, exactly the keys `daemon_mode`
(default `False`) and `tracked_files` (default `[]`) are backfilled when
missing; every other key of the schema is returned as stored, present or
not. -/
theorem load_backfills_only_daemon_and_tracked (d : ConfigDict) :
    load_config (some (StoredBlob.token d)) = Except.ok (backfill d) ∧
    (backfill d).daemonMode = some (d.daemonMode.getD false) ∧
    (backfill d).trackedFiles = some (d.trackedFiles.getD (TrackedFiles.files [])) ∧
    (backfill d).autoCommit = d.autoCommit ∧
    (backfill d).repoUrl = d.repoUrl ∧
    (backfill d).commitInterval = d.commitInterval ∧
    (backfill d).githubToken = d.githubToken :=
  ⟨rfl, rfl, rfl, rfl, rfl, rfl, rfl⟩

/-- Claim C9: with an empty explicit tracked set, change detection
returns false and issues no per-path status query (no subprocess call at
all from the detection loop). -/
theorem empty_selection_short_circuit (env : GitEnv) :
    detectChanges env (TrackedFiles.files []) = (false, []) := rfl

/-- Claim C7, evaluated at the failing inputs: toggling auto-commit on
from the default configuration writes the enabled dictionary to disk but
spawns no scheduler thread (the spawn is guarded by the falsy
`save_config` return), and the in-memory flag is reverted; toggling
daemon mode spawns nothing either.  The startup side of the claim does
hold: `menu` spawns exactly when a flag is set in the loaded
configuration. -/
theorem foreground_toggle_no_spawn_eval :
    (edit_toggle_auto_commit defaultConfig 30).spawned = false ∧
    (edit_toggle_auto_commit defaultConfig 30).written =
      some (StoredBlob.token
        { defaultConfig with autoCommit := some true, commitInterval := some 30 }) ∧
    (edit_toggle_auto_commit defaultConfig 30).finalMem =
      { defaultConfig with commitInterval := some 30 } ∧
    (edit_toggle_daemon defaultConfig).spawned = false ∧
    (edit_toggle_daemon defaultConfig).written =
      some (StoredBlob.token { defaultConfig with daemonMode := some true }) ∧
    menu_starts_scheduler defaultConfig = false ∧
    menu_starts_scheduler { defaultConfig with autoCommit := some true } = true :=
  ⟨rfl, rfl, rfl, rfl, rfl, rfl, rfl⟩

theorem runLoop_succ (envs : Nat → GitEnv) (blobs : Nat → Option StoredBlob)
    (fuel i ec sa : Nat) :
    runLoop envs blobs (fuel + 1) i ec sa =
      match (cycleStep (envs i) (blobs i) ec).exit with
      | CycleExit.stoppedDisabled =>
        { stopped := some StopReason.disabled, cyclesRun := i + 1
          syncAttempts := sa + (if (cycleStep (envs i) (blobs i) ec).syncAttempted then 1 else 0)
          finalErr := (cycleStep (envs i) (blobs i) ec).errCount }
      | CycleExit.stoppedGitUser =>
        { stopped := some StopReason.gitUserMissing, cyclesRun := i + 1
          syncAttempts := sa + (if (cycleStep (envs i) (blobs i) ec).syncAttempted then 1 else 0)
          finalErr := (cycleStep (envs i) (blobs i) ec).errCount }
      | CycleExit.stoppedThreshold =>
        { stopped := some StopReason.errorThreshold, cyclesRun := i + 1
          syncAttempts := sa + (if (cycleStep (envs i) (blobs i) ec).syncAttempted then 1 else 0)
          finalErr := (cycleStep (envs i) (blobs i) ec).errCount }
      | CycleExit.next _ =>
        runLoop envs blobs fuel (i + 1) ((cycleStep (envs i) (blobs i) ec).errCount)
          (sa + (if (cycleStep (envs i) (blobs i) ec).syncAttempted then 1 else 0)) := rfl

theorem autoCommitCycle_err_components {env : GitEnv} {cfg : ConfigDict} (ec : Nat)
    (hflags : flagsOn cfg = true)
    (hun : pyIn "user.name" env.configListOut = true)
    (hue : pyIn "user.email" env.configListOut = true)
    (htf : cfg.trackedFiles.getD (TrackedFiles.files []) = TrackedFiles.all)
    (hdet : pyTruthy env.statusDetectOut = true)
    (hsyn : (syncAttempt env TrackedFiles.all).fst = SyncResult.err) :
    (autoCommitCycle env cfg ec).errCount = ec + 1 ∧
    (autoCommitCycle env cfg ec).syncAttempted = true ∧
    (autoCommitCycle env cfg ec).exit =
      (if 3 ≤ ec + 1 then CycleExit.stoppedThreshold else CycleExit.next 30) := by
  by_cases h3 : 3 ≤ ec + 1 <;>
    simp [autoCommitCycle, hflags, hun, hue, htf, detectChanges, hdet, hsyn, h3]

theorem failing_cycle {env : GitEnv} {blob : Option StoredBlob}
    (hA : alwaysFailingSync env blob) (ec : Nat) :
    (cycleStep env blob ec).errCount = ec + 1 ∧
    (cycleStep env blob ec).syncAttempted = true ∧
    (cycleStep env blob ec).exit =
      (if 3 ≤ ec + 1 then CycleExit.stoppedThreshold else CycleExit.next 30) := by
  obtain ⟨⟨d, rfl, hac, htf⟩, hun, hue, hdet, hadd, hstg, hcp⟩ := hA
  have hsyn : (syncAttempt env TrackedFiles.all).fst = SyncResult.err := by
    rcases hcp with hc | hp
    · simp [syncAttempt, afterStage, hadd, hstg, hc]
    · cases hc2 : env.commitOk <;>
        simp [syncAttempt, afterStage, hadd, hstg, hc2, hp]
  have hcfg : load_config (some (StoredBlob.token d)) = Except.ok (backfill d) := rfl
  have hflags : flagsOn (backfill d) = true := by
    simp [flagsOn, backfill, hac]
  have htf2 : (backfill d).trackedFiles.getD (TrackedFiles.files []) = TrackedFiles.all := by
    simp [backfill, htf]
  rw [cycleStep_ok hcfg]
  exact autoCommitCycle_err_components ec hflags hun hue htf2 hdet hsyn

/-- Claim C1: when every cycle of the loop has its commit/push raise,
each failing cycle increments the consecutive error count and the loop
returns as soon as it reaches 3: for any fuel of at least 3 iterations
the run makes exactly 3 sync attempts, ends with error count 3 and stop
reason `errorThreshold`; extra fuel never yields a 4th attempt or a
restart. -/
theorem auto_commit_stops_after_three_failures
    (envs : Nat → GitEnv) (blobs : Nat → Option StoredBlob)
    (hA : ∀ i, alwaysFailingSync (envs i) (blobs i))
    (fuel : Nat) (hf : 3 ≤ fuel) :
    runLoop envs blobs fuel 0 0 0 =
      { stopped := some StopReason.errorThreshold, cyclesRun := 3
        syncAttempts := 3, finalErr := 3 } := by
  obtain ⟨k, rfl⟩ := Nat.exists_eq_add_of_le hf
  have e0 := failing_cycle (hA 0) 0
  have e1 := failing_cycle (hA 1) 1
  have e2 := failing_cycle (hA 2) 2
  have s0 : runLoop envs blobs (k + 2 + 1) 0 0 0 = runLoop envs blobs (k + 2) 1 1 1 := by
    rw [runLoop_succ, e0.2.2, e0.1, e0.2.1]
    norm_num
  have s1 : runLoop envs blobs (k + 1 + 1) 1 1 1 = runLoop envs blobs (k + 1) 2 2 2 := by
    rw [runLoop_succ, e1.2.2, e1.1, e1.2.1]
    norm_num
  have s2 : runLoop envs blobs (k + 1) 2 2 2 =
      { stopped := some StopReason.errorThreshold, cyclesRun := 3
        syncAttempts := 3, finalErr := 3 } := by
    rw [runLoop_succ, e2.2.2, e2.1, e2.2.1]
    norm_num
  have hk : 3 + k = k + 2 + 1 := by omega
  rw [hk, s0, show k + 2 = k + 1 + 1 from rfl, s1, s2]

theorem auto_commit_stops_after_three_failures_witness :
    runLoop (fun _ => envCommitFail) (fun _ => blobEnabledAll) 5 0 0 0 =
      { stopped := some StopReason.errorThreshold, cyclesRun := 3
        syncAttempts := 3, finalErr := 3 } :=
  auto_commit_stops_after_three_failures _ _
    (fun _ => ⟨⟨dEnabledAll, rfl, rfl, rfl⟩, by decide, by decide, by decide,
      rfl, by decide, Or.inl rfl⟩)
    5 (by norm_num)

theorem git_user_guard_cycle {blob : Option StoredBlob} {cfg : ConfigDict}
    (env : GitEnv) (ec : Nat)
    (hload : load_config blob = Except.ok cfg)
    (hflags : flagsOn cfg = true)
    (hmiss : (pyIn "user.name" env.configListOut &&
      pyIn "user.email" env.configListOut) = false) :
    cycleStep env blob ec =
      { exit := CycleExit.stoppedGitUser, errCount := ec
        syncAttempted := false, trace := [Cmd.configList] } := by
  rw [cycleStep_ok hload]
  simp [autoCommitCycle, hflags, hmiss]

/-- Claim C10: with the flags enabled but the tool configuration lacking
`user.name` or `user.email`, the cycle runs only `git config --list` and
returns right away — before any change detection or sync attempt, with
the error count unchanged and a stop reason distinct from the
disabled-flags and error-threshold exits; the loop never runs another
cycle. -/
theorem git_user_missing_stops_loop (env : GitEnv) (blob : Option StoredBlob)
    (cfg : ConfigDict) (ec : Nat)
    (hload : load_config blob = Except.ok cfg)
    (hflags : flagsOn cfg = true)
    (hmiss : (pyIn "user.name" env.configListOut &&
      pyIn "user.email" env.configListOut) = false) :
    cycleStep env blob ec =
      { exit := CycleExit.stoppedGitUser, errCount := ec
        syncAttempted := false, trace := [Cmd.configList] } ∧
    ∀ fuel, 1 ≤ fuel →
      runLoop (fun _ => env) (fun _ => blob) fuel 0 0 0 =
        { stopped := some StopReason.gitUserMissing, cyclesRun := 1
          syncAttempts := 0, finalErr := 0 } := by
  refine ⟨git_user_guard_cycle env ec hload hflags hmiss, ?_⟩
  intro fuel hfuel
  obtain ⟨k, rfl⟩ := Nat.exists_eq_add_of_le hfuel
  rw [show 1 + k = k + 1 from Nat.add_comm 1 k, runLoop_succ]
  simp [git_user_guard_cycle env 0 hload hflags hmiss]

theorem git_user_missing_stops_loop_witness :
    runLoop (fun _ => envMissingUser) (fun _ => blobEnabledAll) 2 0 0 0 =
      { stopped := some StopReason.gitUserMissing, cyclesRun := 1
        syncAttempts := 0, finalErr := 0 } :=
  (git_user_missing_stops_loop envMissingUser blobEnabledAll dEnabledAll 0 rfl rfl
    (by decide)).2 2 (by norm_num)

theorem autoCommitCycle_sleep (env : GitEnv) (cfg : ConfigDict) (ec n : Nat)
    (h : (autoCommitCycle env cfg ec).exit = CycleExit.next n) : n = 30 := by
  by_cases h1 : flagsOn cfg = false
  · simp [autoCommitCycle, h1] at h
  · by_cases h2 : (pyIn "user.name" env.configListOut &&
        pyIn "user.email" env.configListOut) = false
    · simp [autoCommitCycle, h1, h2] at h
    · by_cases h3 : (detectChanges env (cfg.trackedFiles.getD (TrackedFiles.files []))).fst = true
      · cases hs : (syncAttempt env (cfg.trackedFiles.getD (TrackedFiles.files []))).fst with
        | ok => simp [autoCommitCycle, h1, h2, h3, hs] at h; omega
        | noStaged => simp [autoCommitCycle, h1, h2, h3, hs] at h; omega
        | err =>
          by_cases h4 : 3 ≤ ec + 1
          · simp [autoCommitCycle, h1, h2, h3, hs, h4] at h
          · simp [autoCommitCycle, h1, h2, h3, hs, h4] at h; omega
      · simp [autoCommitCycle, h1, h2, h3] at h; omega

/-- Claim C2 (amended): after any completed cycle the scheduler sleeps a
fixed 30 seconds, ignoring the configured `commit_interval` and sleeping
no 5-minute backoff; the only other sleep is the 60-second wait after a
cycle aborted by an exception escaping the body (for example a
configuration load failure). -/
theorem cycle_sleep_fixed (env : GitEnv) (blob : Option StoredBlob) (ec n : Nat)
    (h : (cycleStep env blob ec).exit = CycleExit.next n) :
    n = 30 ∨ (n = 60 ∧ loadFails blob = true) := by
  cases hl : load_config blob with
  | ok cfg =>
    left
    rw [cycleStep_ok hl] at h
    exact autoCommitCycle_sleep env cfg ec n h
  | error e =>
    right
    have hstep : cycleStep env blob ec =
        (if 3 ≤ ec + 1 then
          { exit := CycleExit.stoppedThreshold, errCount := ec + 1
            syncAttempted := false, trace := [] }
        else
          { exit := CycleExit.next 60, errCount := ec + 1
            syncAttempted := false, trace := [] }) := by
      unfold cycleStep
      rw [hl]
    rw [hstep] at h
    by_cases h3 : 3 ≤ ec + 1
    · rw [if_pos h3] at h
      simp at h
    · rw [if_neg h3] at h
      simp at h
      exact ⟨by omega, by simp [loadFails, hl]⟩

theorem cycle_sleep_fixed_witness :
    (30 : Nat) = 30 ∨ ((30 : Nat) = 60 ∧ loadFails blobEnabledAll = true) :=
  cycle_sleep_fixed envSucc blobEnabledAll 0 30 (by decide)

/-- Counterexample to claim C2: with `commit_interval` set to 30
minutes, a cycle with a successful sync is followed by a 30 second
sleep, not a 1800 second one, and a cycle whose sync failed is also
followed by a 30 second sleep, not the claimed 300 second backoff. -/
theorem sleep_ignores_interval_cex :
    (cycleStep envSucc blobEnabledAll 0).exit = CycleExit.next 30 ∧
    (cycleStep envCommitFail blobEnabledAll 0).exit = CycleExit.next 30 ∧
    CycleExit.next 30 ≠ CycleExit.next (30 * 60) ∧
    CycleExit.next 30 ≠ CycleExit.next (5 * 60) := by
  decide

theorem countCmd_append (c : Cmd) (l1 l2 : List Cmd) :
    countCmd c (l1 ++ l2) = countCmd c l1 + countCmd c l2 := by
  induction l1 with
  | nil => simp [countCmd]
  | cons d t ih => simp [countCmd, ih]; omega

theorem stageEach_count_zero (env : GitEnv) (c : Cmd)
    (hc : ∀ f, c ≠ Cmd.addFile f) :
    ∀ fs, countCmd c (stageEach env fs).snd = 0 := by
  intro fs
  induction fs with
  | nil => rfl
  | cons f rest ih =>
    by_cases he : env.fileExists f = false
    · simp [stageEach, he, ih]
    · by_cases ha : env.addFileOk f = false
      · simp [stageEach, he, ha, countCmd, Ne.symm (hc f)]
      · simp [stageEach, he, ha, countCmd, Ne.symm (hc f), ih]

theorem afterStage_push_le (env : GitEnv) (pre : List Cmd) :
    countCmd Cmd.push (afterStage env pre).snd ≤ countCmd Cmd.push pre + 1 := by
  unfold afterStage
  by_cases hs : pyTruthy env.statusStagedOut = true <;> by_cases hcm : env.commitOk = true <;>
    by_cases hp : env.pushOk = true <;>
      simp [hs, hcm, hp, countCmd_append, countCmd]

theorem afterStage_count_keeps_zero (env : GitEnv) (pre : List Cmd) (c : Cmd)
    (hpre : countCmd c pre = 0) (h1 : c ≠ Cmd.statusPorcelain)
    (h2 : c ≠ Cmd.commit) (h3 : c ≠ Cmd.push) :
    countCmd c (afterStage env pre).snd = 0 := by
  unfold afterStage
  by_cases hs : pyTruthy env.statusStagedOut = true <;> by_cases hcm : env.commitOk = true <;>
    by_cases hp : env.pushOk = true <;>
      simp [hs, hcm, hp, countCmd_append, countCmd, hpre,
        Ne.symm h1, Ne.symm h2, Ne.symm h3]

theorem syncAttempt_push_le_one (env : GitEnv) (tf : TrackedFiles) :
    countCmd Cmd.push (syncAttempt env tf).snd ≤ 1 := by
  cases tf with
  | all =>
    unfold syncAttempt
    by_cases ha : env.addAllOk = true
    · have := afterStage_push_le env [Cmd.addAll]
      simp only [ha, if_true]
      simp [countCmd] at this
      omega
    · simp [ha, countCmd]
  | files fs =>
    unfold syncAttempt
    have hz := stageEach_count_zero env Cmd.push (fun _ h => nomatch h) fs
    by_cases hst : (stageEach env fs).fst = true
    · have := afterStage_push_le env (stageEach env fs).snd
      simp only [hst, if_true]
      omega
    · simp [hst, hz]

theorem syncAttempt_count_zero (env : GitEnv) (tf : TrackedFiles) (c : Cmd)
    (h0 : ∀ f, c ≠ Cmd.addFile f) (h1 : c ≠ Cmd.addAll) (h2 : c ≠ Cmd.statusPorcelain)
    (h3 : c ≠ Cmd.commit) (h4 : c ≠ Cmd.push) :
    countCmd c (syncAttempt env tf).snd = 0 := by
  cases tf with
  | all =>
    unfold syncAttempt
    by_cases ha : env.addAllOk = true
    · simp only [ha, if_true]
      exact afterStage_count_keeps_zero env [Cmd.addAll] c
        (by simp [countCmd, Ne.symm h1]) h2 h3 h4
    · simp [ha, countCmd, Ne.symm h1]
  | files fs =>
    unfold syncAttempt
    by_cases hst : (stageEach env fs).fst = true
    · simp only [hst, if_true]
      exact afterStage_count_keeps_zero env (stageEach env fs).snd c
        (stageEach_count_zero env c h0 fs) h2 h3 h4
    · simp [hst, stageEach_count_zero env c h0 fs]

theorem syncAttempt_pushFail_not_ok (env : GitEnv) (tf : TrackedFiles)
    (hp : env.pushOk = false) : (syncAttempt env tf).fst ≠ SyncResult.ok := by
  cases tf with
  | all =>
    unfold syncAttempt afterStage
    by_cases ha : env.addAllOk = true <;> by_cases hs : pyTruthy env.statusStagedOut = true <;>
      by_cases hcm : env.commitOk = true <;> simp [ha, hs, hcm, hp]
  | files fs =>
    unfold syncAttempt afterStage
    by_cases hst : (stageEach env fs).fst = true <;>
      by_cases hs : pyTruthy env.statusStagedOut = true <;>
        by_cases hcm : env.commitOk = true <;> simp [hst, hs, hcm, hp]

/-- Claim C5 (amended): when the push is rejected, the sync attempt
performs no reconciliation and no retry: the trace of the attempt holds
at most one push and no fetch, merge or force-push invocation, and the
attempt does not succeed (it is recorded as a failure toward the error
threshold). -/
theorem push_fail_no_reconcile (env : GitEnv) (tf : TrackedFiles)
    (hp : env.pushOk = false) :
    countCmd Cmd.push (syncAttempt env tf).snd ≤ 1 ∧
    countCmd Cmd.fetch (syncAttempt env tf).snd = 0 ∧
    countCmd Cmd.merge (syncAttempt env tf).snd = 0 ∧
    countCmd Cmd.forcePush (syncAttempt env tf).snd = 0 ∧
    (syncAttempt env tf).fst ≠ SyncResult.ok :=
  ⟨syncAttempt_push_le_one env tf,
   syncAttempt_count_zero env tf Cmd.fetch (fun _ h => nomatch h) (fun h => nomatch h)
     (fun h => nomatch h) (fun h => nomatch h) (fun h => nomatch h),
   syncAttempt_count_zero env tf Cmd.merge (fun _ h => nomatch h) (fun h => nomatch h)
     (fun h => nomatch h) (fun h => nomatch h) (fun h => nomatch h),
   syncAttempt_count_zero env tf Cmd.forcePush (fun _ h => nomatch h) (fun h => nomatch h)
     (fun h => nomatch h) (fun h => nomatch h) (fun h => nomatch h),
   syncAttempt_pushFail_not_ok env tf hp⟩

theorem push_fail_no_reconcile_witness :
    countCmd Cmd.push (syncAttempt envPushFail TrackedFiles.all).snd ≤ 1 ∧
    countCmd Cmd.fetch (syncAttempt envPushFail TrackedFiles.all).snd = 0 ∧
    countCmd Cmd.merge (syncAttempt envPushFail TrackedFiles.all).snd = 0 ∧
    countCmd Cmd.forcePush (syncAttempt envPushFail TrackedFiles.all).snd = 0 ∧
    (syncAttempt envPushFail TrackedFiles.all).fst ≠ SyncResult.ok :=
  push_fail_no_reconcile envPushFail TrackedFiles.all rfl

/-- Counterexample to claim C5: with the remote rejecting the push, the
complete trace of the inner try is stage, status re-check, commit, one
push — a single push attempt, no fetch, no merge, no retried push — and
the attempt ends as an error. -/
theorem push_rejected_no_retry_cex :
    syncAttempt envPushFail TrackedFiles.all =
      (SyncResult.err, [Cmd.addAll, Cmd.statusPorcelain, Cmd.commit, Cmd.push]) ∧
    countCmd Cmd.push (syncAttempt envPushFail TrackedFiles.all).snd = 1 ∧
    countCmd Cmd.fetch (syncAttempt envPushFail TrackedFiles.all).snd = 0 := by
  decide

/-- Claim C6 (amended): no subprocess invocation made by the scheduler
cycle passes any `timeout` argument, so no call is bounded. -/
theorem no_subprocess_timeout (env : GitEnv) (blob : Option StoredBlob) (ec : Nat)
    (c : Cmd) (hc : c ∈ (cycleStep env blob ec).trace) :
    subprocessTimeout c = none := by
  cases c <;> rfl

theorem no_subprocess_timeout_witness : subprocessTimeout Cmd.push = none :=
  no_subprocess_timeout envSucc blobEnabledAll 0 Cmd.push (by decide)

/-- Counterexample to claim C6: the cycle invokes the commit and push
subprocesses with no `timeout` argument at all, rather than a 30 second
bound. -/
theorem unbounded_invocation_cex :
    Cmd.push ∈ (cycleStep envSucc blobEnabledAll 0).trace ∧
    subprocessTimeout Cmd.push = none ∧
    Cmd.commit ∈ (cycleStep envSucc blobEnabledAll 0).trace ∧
    subprocessTimeout Cmd.commit = none := by
  decide
